import Mathlib

/-!
Verification of the gemini-image-mcp batch image-generation pipeline.

The development shallowly embeds the two Python sources
(`gemini_image_server.py` and `batch_generate.py`).  Pure logic is
translated to executable Lean functions; the process's interactions with
the outside world (filesystem, base64 codec, HTTP POST, clock) are
abstracted as an explicit `Sys` record of oracles, and every function
returns, besides its Python return value, an explicit log of the network
calls, file writes and queue removals it performed, so that properties
such as "no network call is issued" are directly statable.

The queue store itself lives in `batch_manager.py`, which is invoked via
subprocess and is not part of the embedded sources; its `remove`
operation is modelled from the specification (see `queueRemove`).
-/

deriving instance DecidableEq for Except

namespace Gemini

/-- A content part of a Gemini API payload: either an inline (base64) image
with a mime type, or the prompt text. -/
inductive Part where
  | inlineData (mimeType : String) (data : String)
  | text (content : String)
deriving DecidableEq

/-- The request payload sent to the generateContent endpoint: the model in
the URL, the ordered content parts, and the imageConfig block
(aspectRatio always, imageSize only when present). -/
structure Payload where
  model : String
  parts : List Part
  aspectRatioStr : String
  imageSize : Option String
deriving DecidableEq

/-- The external API's response, as far as the code observes it:
`status_code`, raw `text` body, and `candidates[0].content.parts`, each
part being `some d` when it carries `inlineData` with data `d` and `none`
otherwise. -/
structure ApiResponse where
  status_code : Nat
  text : String
  parts : List (Option String)
deriving DecidableEq

/-- Oracles for the process's interactions with the outside world.
`b64decode` and `writeFile` return `Except` so that a decode error or an
OS write error (both caught by the Python code) can be injected. -/
structure Sys where
  expanduser : String → String
  pathExists : String → Bool
  readBytes : String → List Nat
  b64encode : List Nat → String
  b64decode : String → Except String (List Nat)
  writeFile : String → List Nat → Except String Unit
  post : Payload → ApiResponse
  timestamp : String

/-- The Python `reference_images` argument: absent (None), a single string,
or a list of strings. -/
inductive RefArg where
  | pyNone
  | pyStr (s : String)
  | pyList (l : List String)
deriving DecidableEq

/-- Python truthiness of the `reference_images` argument. -/
def RefArg.truthy : RefArg → Bool
  | .pyNone => false
  | .pyStr s => !s.isEmpty
  | .pyList l => !l.isEmpty

/-- Python truthiness of an optional string (None and "" are falsy). -/
def optStrTruthy : Option String → Bool
  | none => false
  | some s => !s.isEmpty

/-- Extension of a path, following `os.path.splitext`: the part of the
basename from its last dot, where a run of leading dots does not start an
extension. -/
def extOf (path : String) : String :=
  let base := (path.splitOn "/").getLastD ""
  let cs := base.toList
  let lead := (cs.takeWhile (fun c => c = '.')).length
  let rest := cs.drop lead
  let tail := (rest.reverse.takeWhile (fun c => c ≠ '.')).reverse
  if tail.length = rest.length then "" else String.mk ('.' :: tail)

/-- `get_mime_type`: fixed extension table, defaulting to PNG. -/
def get_mime_type (file_path : String) : String :=
  let ext := (extOf file_path).toLower
  (([(".png", "image/png"), (".jpg", "image/jpeg"), (".jpeg", "image/jpeg"),
     (".webp", "image/webp"), (".gif", "image/gif")] : List (String × String)).lookup ext).getD "image/png"

/-- The fixed size-class table `size_map` shared by both sources. -/
def size_map : List (String × String) :=
  [("small", "1K"), ("medium", "2K"), ("large", "2K"), ("xlarge", "4K")]

/-- Scan `candidates[0].content.parts` for the first part carrying
`inlineData`, as the `for part in ...: if 'inlineData' in part` loop does. -/
def findImageData : List (Option String) → Option String
  | [] => none
  | some d :: _ => some d
  | none :: rest => findImageData rest

/-! ## gemini_image_server.py -/

/-- Server configuration derived from `config.json`: `MAX_REF_IMAGES`
(default 14) and the images directory. -/
structure ServerCfg where
  maxRefImages : Nat
  images_dir : String

/-- The path-list computation of `_normalize_reference_images` (before the
length check): a list argument wins if truthy, else a truthy single path. -/
def _normalize_paths (reference_images : RefArg) (reference_image : Option String) : List String :=
  if reference_images.truthy then
    match reference_images with
    | .pyStr s => [s]
    | .pyList l => l
    | .pyNone => []
  else if optStrTruthy reference_image then
    match reference_image with
    | some p => [p]
    | none => []
  else []

/-- `_normalize_reference_images`: normalize to a list and enforce the
`MAX_REF_IMAGES` bound, raising the capacity message otherwise. -/
def _normalize_reference_images (maxRef : Nat) (reference_images : RefArg)
    (reference_image : Option String) : Except String (List String) :=
  let paths := _normalize_paths reference_images reference_image
  if paths.length > maxRef then
    .error ("Too many reference images (" ++ toString paths.length ++ "). Maximum is "
            ++ toString maxRef ++ ".")
  else
    .ok paths

/-- `_encode_reference_images`: expand each path, require existence
(raising "Reference image not found: <expanded>") and build the ordered
inlineData parts. -/
def _encode_reference_images (sys : Sys) : List String → Except String (List Part)
  | [] => .ok []
  | p :: rest =>
    let ref_path := sys.expanduser p
    if sys.pathExists ref_path then
      match _encode_reference_images sys rest with
      | .ok parts => .ok (Part.inlineData (get_mime_type ref_path) (sys.b64encode (sys.readBytes ref_path)) :: parts)
      | .error e => .error e
    else
      .error ("Reference image not found: " ++ ref_path)

/-- Quality-tier coercion: an unrecognized tier falls back to "pro"
(`quality if quality in MODELS else "pro"`). -/
def server_quality (quality : String) : String :=
  if quality = "pro" || quality = "fast" then quality else "pro"

/-- `MODELS` lookup by (already coerced) quality tier. -/
def server_model (quality : String) : String :=
  if quality = "pro" then "gemini-3-pro-image-preview" else "gemini-2.5-flash-image"

/-- Resolution label in `generate_image`: fast tier remaps the "large"
default to "small", then the fixed table is consulted (default "2K"). -/
def server_gemini_size (quality image_size : String) : String :=
  let image_size := if quality = "fast" && image_size = "large" then "small" else image_size
  (size_map.lookup image_size).getD "2K"

/-- Reference-path resolution in `generate_image`: only the pro tier
consults `_normalize_reference_images`; the fast tier uses no references. -/
def server_ref_paths (cfg : ServerCfg) (quality : String) (reference_images : RefArg)
    (reference_image : Option String) : Except String (List String) :=
  if quality = "pro" then _normalize_reference_images cfg.maxRefImages reference_images reference_image
  else .ok []

/-- The payload built by `generate_image`: reference parts first, prompt
text last; imageSize only on the pro tier. -/
def server_payload (prompt ar image_size quality : String) (refParts : List Part) : Payload :=
  { model := server_model quality
  , parts := refParts ++ [Part.text prompt]
  , aspectRatioStr := ar
  , imageSize := if quality = "pro" then some (server_gemini_size quality image_size) else none }

/-- The structured success value returned by `generate_image`. -/
structure GenResult where
  image_path : String
  resolution : String
  aspectRatioStr : String
  quality : String
  model : String
  reference_images_used : Nat
  message : String
deriving DecidableEq

/-- Result of one `generate_image` call: the Python return value or raised
exception message, plus the log of network calls and file writes. -/
structure CallLog where
  result : Except String GenResult
  calls : List Payload
  writes : List (String × List Nat)
deriving DecidableEq

/-- The deterministic output path `generate_image` writes to:
`{images_dir}/gemini_image_{timestamp}.png`. -/
def server_out_path (cfg : ServerCfg) (sys : Sys) : String :=
  cfg.images_dir ++ "/gemini_image_" ++ sys.timestamp ++ ".png"

/-- The structured success value `generate_image` returns in its last step. -/
def server_success (sys : Sys) (cfg : ServerCfg) (ar image_size quality : String)
    (ref_paths : List String) : GenResult :=
  { image_path := server_out_path cfg sys
  , resolution := server_gemini_size quality image_size
  , aspectRatioStr := ar
  , quality := quality
  , model := server_model quality
  , reference_images_used := ref_paths.length
  , message := "Image generated successfully (" ++ quality ++ " mode): " ++ server_out_path cfg sys }

/-- `generate_image` of gemini_image_server.py. -/
def generate_image (sys : Sys) (cfg : ServerCfg) (apiKey : Option String)
    (prompt ar image_size : String) (reference_image : Option String)
    (reference_images : RefArg) (quality0 : String) : CallLog :=
  match apiKey with
  | none => ⟨.error "GEMINI_API_KEY not set", [], []⟩
  | some _ =>
    match server_ref_paths cfg (server_quality quality0) reference_images reference_image with
    | .error e => ⟨.error e, [], []⟩
    | .ok ref_paths =>
      match _encode_reference_images sys ref_paths with
      | .error e => ⟨.error e, [], []⟩
      | .ok refParts =>
        if (sys.post (server_payload prompt ar image_size (server_quality quality0) refParts)).status_code ≠ 200 then
          ⟨.error ("API error: "
                   ++ toString (sys.post (server_payload prompt ar image_size (server_quality quality0) refParts)).status_code
                   ++ " - " ++ (sys.post (server_payload prompt ar image_size (server_quality quality0) refParts)).text),
           [server_payload prompt ar image_size (server_quality quality0) refParts], []⟩
        else
          match findImageData (sys.post (server_payload prompt ar image_size (server_quality quality0) refParts)).parts with
          | none => ⟨.error "No image data in API response",
                     [server_payload prompt ar image_size (server_quality quality0) refParts], []⟩
          | some d =>
            if d.isEmpty then
              ⟨.error "No image data in API response",
               [server_payload prompt ar image_size (server_quality quality0) refParts], []⟩
            else
              match sys.b64decode d with
              | .error e => ⟨.error e, [server_payload prompt ar image_size (server_quality quality0) refParts], []⟩
              | .ok bytes =>
                match sys.writeFile (server_out_path cfg sys) bytes with
                | .error e => ⟨.error e, [server_payload prompt ar image_size (server_quality quality0) refParts], []⟩
                | .ok _ =>
                  ⟨.ok (server_success sys cfg ar image_size (server_quality quality0) ref_paths),
                   [server_payload prompt ar image_size (server_quality quality0) refParts],
                   [(server_out_path cfg sys, bytes)]⟩

/-- The argument vector `add_to_batch` hands to the batch-manager script's
`add` command (after the script path and the "add" verb). -/
structure AddToBatchCmd where
  prompt : String
  filename : String
  aspectRatioStr : String
  image_size : String
  reference_images_json : List String
  quality : String
deriving DecidableEq

/-- Python `x or default` on an optional string argument. -/
def pyOr (s : Option String) (dflt : String) : String :=
  match s with
  | some v => if v.isEmpty then dflt else v
  | none => dflt

/-- `add_to_batch`: coerce the tier, normalize references (pro only, may
raise the capacity error), remap fast+"large" to "small", and build the
subprocess argument vector for the queue manager's `add`. -/
def add_to_batch (cfg : ServerCfg) (prompt : String) (filename : Option String)
    (ar image_size : String) (reference_image : Option String)
    (reference_images : RefArg) (quality0 : String) : Except String AddToBatchCmd :=
  let quality := server_quality quality0
  match (if quality = "pro"
         then _normalize_reference_images cfg.maxRefImages reference_images reference_image
         else .ok []) with
  | .error e => .error e
  | .ok ref_paths =>
    let image_size := if quality = "fast" && image_size = "large" then "small" else image_size
    .ok { prompt := prompt
        , filename := pyOr filename ""
        , aspectRatioStr := pyOr (some ar) "16:9"
        , image_size := pyOr (some image_size) "large"
        , reference_images_json := ref_paths
        , quality := quality }

/-! ## The MCP dispatcher (`handle_tool_call` and `main`) -/

/-- An inbound JSON-RPC message, as far as `main` inspects it: its
`method`, its `id`, and `params.name` for a `tools/call`. -/
structure Message where
  method : Option String
  id : Option Nat
  paramsName : Option String
deriving DecidableEq

/-- An outbound JSON-RPC envelope: a result envelope (its body abstracted
to a string) or an error envelope with a numeric code and a message. -/
inductive Response where
  | resultEnvelope (id : Option Nat) (body : String)
  | errorEnvelope (id : Option Nat) (code : Int) (message : String)
deriving DecidableEq

/-- The tool names recognized by `handle_tool_call`'s if/elif chain. -/
def knownTools : List String :=
  ["generate_image", "add_to_batch", "remove_from_batch", "view_batch_queue",
   "run_batch", "convert_to_webp", "get_generated_webp_images", "upload_to_wordpress"]

/-- Python `f"{x}"` on an optional string (None prints as "None"). -/
def pyShowOptStr : Option String → String
  | none => "None"
  | some s => s

/-- `handle_tool_call`: dispatch on the tool name; the bodies of the eight
known tools are modelled separately (`generate_image`, `add_to_batch`, ...)
and abstracted here as an oracle `impl` from tool name to outcome, where
`.error e` models a Python exception with message `e` raised by the tool.
Any raised exception — including the `Unknown tool` one — is caught and
converted into an error envelope with code -32000. -/
def handle_tool_call (impl : String → Except String String) (request_id : Option Nat)
    (tool_name : Option String) : Response :=
  let outcome : Except String String :=
    match tool_name with
    | some n => if knownTools.contains n then impl n
                else .error ("Unknown tool: " ++ n)
    | none => .error ("Unknown tool: " ++ pyShowOptStr tool_name)
  match outcome with
  | .ok text => .resultEnvelope request_id text
  | .error e => .errorEnvelope request_id (-32000) e

/-- One iteration of `main`'s read loop: the responses written for one
parsed message.  Only the four recognized methods produce any output;
`notifications/initialized` and every unrecognized (or absent) method
produce none. -/
def dispatchMessage (impl : String → Except String String) (message : Message) : List Response :=
  match message.method with
  | some "initialize" => [Response.resultEnvelope message.id "initialize-result"]
  | some "tools/list" => [Response.resultEnvelope message.id "tools-list-result"]
  | some "tools/call" => [handle_tool_call impl message.id message.paramsName]
  | some "notifications/initialized" => []
  | _ => []

/-- `main`'s read loop over the whole input channel: the channel is the
list of lines, each parsed into a message or a parse error (which the
loop's try/except swallows); the loop ends exactly when the list does. -/
def mainLoop (impl : String → Except String String) : List (Except String Message) → List Response
  | [] => []
  | .error _ :: rest => mainLoop impl rest
  | .ok m :: rest => dispatchMessage impl m ++ mainLoop impl rest

/-! ## batch_generate.py -/

/-- One entry of the prompts/queue file, as `generate_images_batch` reads
it (`prompt_data.get(...)`); `none` models an absent key. -/
structure PromptData where
  prompt : String
  filename : Option String
  aspectRatioStr : Option String
  image_size : Option String
  quality : Option String
  reference_images : Option (List String)
  reference_image : Option String
deriving DecidableEq

/-- A per-item outcome record, as appended to `results`. -/
inductive Outcome where
  | success (filename path resolution ar : String) (reference_images_used : Nat)
  | error (filename errorMsg : String)
deriving DecidableEq

/-- Whether an outcome record has status "success". -/
def Outcome.isSuccess : Outcome → Bool
  | .success .. => true
  | .error .. => false

/-- One processed entry: its outcome plus the logs of network calls, file
writes and queue-removal identifiers this iteration produced. -/
structure ItemStep where
  outcome : Outcome
  calls : List Payload
  writes : List (String × List Nat)
  removals : List String
deriving DecidableEq

/-- `encode_reference_images` of batch_generate.py (same logic as the
server's `_encode_reference_images`). -/
def encode_reference_images (sys : Sys) : List String → Except String (List Part)
  | [] => .ok []
  | p :: rest =>
    let ref_path := sys.expanduser p
    if sys.pathExists ref_path then
      match encode_reference_images sys rest with
      | .ok parts => .ok (Part.inlineData (get_mime_type ref_path) (sys.b64encode (sys.readBytes ref_path)) :: parts)
      | .error e => .error e
    else
      .error ("Reference image not found: " ++ ref_path)

/-- The entry's filename before the image-extension suffix is added:
`prompt_data.get('filename', f'image_{i}.png')` (1-based `i`). -/
def defaultFilename (i : Nat) (pd : PromptData) : String :=
  pd.filename.getD ("image_" ++ toString i ++ ".png")

/-- Ensure the `.png` suffix, as `if not filename.endswith('.png')` does. -/
def withPngSuffix (s : String) : String :=
  if s.endsWith ".png" then s else s ++ ".png"

/-- The entry's quality tier after the `if quality not in models` fallback. -/
def batchQuality (pd : PromptData) : String :=
  let q := pd.quality.getD "pro"
  if q = "pro" || q = "fast" then q else "pro"

/-- The entry's reference list: only the pro tier reads
`reference_images` (falling back to a truthy single `reference_image`);
the fast tier always uses the empty list. -/
def batchReferenceImages (pd : PromptData) : List String :=
  if batchQuality pd = "pro" then
    match pd.reference_images with
    | some l => if l.isEmpty then (match pd.reference_image with
                                   | some s => if s.isEmpty then [] else [s]
                                   | none => [])
                else l
    | none => match pd.reference_image with
              | some s => if s.isEmpty then [] else [s]
              | none => []
  else []

/-- The batch runner's resolution label: a straight `size_map` lookup on
the stored size class (default "large", fallback "2K") with no
tier-dependent remapping. -/
def batchGeminiSize (pd : PromptData) : String :=
  (size_map.lookup (pd.image_size.getD "large")).getD "2K"

/-- The model endpoint chosen for the entry. -/
def batchModel (pd : PromptData) : String :=
  if batchQuality pd = "pro" then "gemini-3-pro-image-preview" else "gemini-2.5-flash-image"

/-- The payload the batch runner posts for one entry: reference parts
first, the prompt text last; imageSize only on the pro tier. -/
def batchPayload (pd : PromptData) (refParts : List Part) : Payload :=
  { model := batchModel pd
  , parts := refParts ++ [Part.text pd.prompt]
  , aspectRatioStr := pd.aspectRatioStr.getD "1:1"
  , imageSize := if batchQuality pd = "pro" then some (batchGeminiSize pd) else none }

/-- The body of `generate_images_batch`'s per-entry loop (the try/except
around one entry): every failure path yields an error outcome, performs no
queue removal, and the loop goes on; the success path writes the decoded
image, records a success outcome and removes the original (pre-suffix)
filename from the queue. -/
def processEntry (sys : Sys) (output_dir : String) (i : Nat) (pd : PromptData) : ItemStep :=
  match encode_reference_images sys (batchReferenceImages pd) with
  | .error e => ⟨Outcome.error (withPngSuffix (defaultFilename i pd)) e, [], [], []⟩
  | .ok refParts =>
    if (sys.post (batchPayload pd refParts)).status_code ≠ 200 then
      ⟨Outcome.error (withPngSuffix (defaultFilename i pd))
         ("API error: " ++ toString (sys.post (batchPayload pd refParts)).status_code
          ++ " - " ++ (sys.post (batchPayload pd refParts)).text),
       [batchPayload pd refParts], [], []⟩
    else
      match findImageData (sys.post (batchPayload pd refParts)).parts with
      | none => ⟨Outcome.error (withPngSuffix (defaultFilename i pd)) "No image data in API response",
                 [batchPayload pd refParts], [], []⟩
      | some d =>
        if d.isEmpty then
          ⟨Outcome.error (withPngSuffix (defaultFilename i pd)) "No image data in API response",
           [batchPayload pd refParts], [], []⟩
        else
          match sys.b64decode d with
          | .error e => ⟨Outcome.error (withPngSuffix (defaultFilename i pd)) e,
                         [batchPayload pd refParts], [], []⟩
          | .ok bytes =>
            match sys.writeFile (output_dir ++ "/" ++ withPngSuffix (defaultFilename i pd)) bytes with
            | .error e => ⟨Outcome.error (withPngSuffix (defaultFilename i pd)) e,
                           [batchPayload pd refParts], [], []⟩
            | .ok _ =>
              ⟨Outcome.success (withPngSuffix (defaultFilename i pd))
                 (output_dir ++ "/" ++ withPngSuffix (defaultFilename i pd)) (batchGeminiSize pd)
                 (pd.aspectRatioStr.getD "1:1") (batchReferenceImages pd).length,
               [batchPayload pd refParts],
               [(output_dir ++ "/" ++ withPngSuffix (defaultFilename i pd), bytes)],
               [defaultFilename i pd]⟩

/-- The per-entry loop `for i, prompt_data in enumerate(prompts, 1)`: each
entry is processed with its own view of the outside world (`sysAt i`). -/
def runEntries (sysAt : Nat → Sys) (output_dir : String) : Nat → List PromptData → List ItemStep
  | _, [] => []
  | i, pd :: rest => processEntry (sysAt i) output_dir i pd :: runEntries sysAt output_dir (i + 1) rest

/-- The observable effects of one `generate_images_batch` run: the item
steps, the summary-file write, and the printed (total, success, failed)
report. -/
structure BatchRun where
  steps : List ItemStep
  summaryWrite : Option (String × List Outcome)
  report : Option (Nat × Nat × Nat)
deriving DecidableEq

/-- `generate_images_batch`: bail out without a key or with no prompts;
otherwise process every entry, dump the ordered outcome list to
`batch_results.json` in the output directory and report the counts. -/
def generate_images_batch (sysAt : Nat → Sys) (apiKey : Option String)
    (prompts : List PromptData) (output_dir : String) : BatchRun :=
  match apiKey with
  | none => ⟨[], none, none⟩
  | some _ =>
    if prompts.isEmpty then ⟨[], none, none⟩
    else
      let steps := runEntries sysAt output_dir 1 prompts
      let results := steps.map ItemStep.outcome
      ⟨steps,
       some (output_dir ++ "/" ++ "batch_results.json", results),
       some (prompts.length,
             (results.filter Outcome.isSuccess).length,
             (results.filter (fun r => !r.isSuccess)).length)⟩

/-! ## The queue store (batch_manager.py, not among the embedded sources) -/

/-- Digit accumulator for `parseNonNegInt`. -/
def parseDigitsAux : List Char → Nat → Option Nat
  | [], acc => some acc
  | c :: rest, acc => if c.isDigit then parseDigitsAux rest (acc * 10 + (c.toNat - 48)) else none

/-- Modelled from the spec: whether a removal identifier "parses as a
non-negative integer" (batch_manager.py is not among the embedded
sources).  A non-empty all-digit string parses; anything else does not. -/
def parseNonNegInt (s : String) : Option Nat :=
  match s.toList with
  | [] => none
  | cs => parseDigitsAux cs 0

/-- Remove the first entry with the given filename, leaving the rest in
order. -/
def removeFirst (queue : List String) (fname : String) : List String :=
  match queue with
  | [] => []
  | q :: rest => if q = fname then rest else q :: removeFirst rest fname

/-- Modelled from the spec: the queue manager script's `remove` operation
(`batch_manager.py`, invoked by `remove_from_queue` via subprocess and not
among the embedded sources).  Per §4.5, an identifier that parses as a
non-negative integer within bounds removes by positional index; otherwise
the first entry whose filename matches is removed; no match leaves the
queue unchanged (a reported, non-fatal NotFound). -/
def queueRemove (queue : List String) (identifier : String) : List String :=
  match parseNonNegInt identifier with
  | some i => if i < queue.length then queue.eraseIdx i else removeFirst queue identifier
  | none => removeFirst queue identifier

/-- Apply the queue removals of one item step in order. -/
def applyRemovals (queue : List String) (removals : List String) : List String :=
  removals.foldl queueRemove queue

/-- The live queue after a prefix of item steps has run. -/
def queueAfter (queue : List String) (steps : List ItemStep) : List String :=
  steps.foldl (fun q st => applyRemovals q st.removals) queue

/-- The original (pre-run, pre-suffix) filenames of the queued entries, in
order, with their 1-based loop indices. -/
def queueFilenames : Nat → List PromptData → List String
  | _, [] => []
  | i, pd :: rest => defaultFilename i pd :: queueFilenames (i + 1) rest

/-- The queue a run should leave behind after a processed prefix: the
failed entries of the prefix (in original order) followed by the
untouched, not-yet-processed filenames. -/
def pendingAfter (processed : List (ItemStep × String)) (rest : List String) : List String :=
  (processed.filterMap (fun p => if p.1.outcome.isSuccess then none else some p.2)) ++ rest

/-! ## Helper lemmas -/

/-- Case analysis of one loop iteration: every failing branch performs no
queue removal, and the single succeeding branch removes exactly the
original (pre-suffix) filename, writes the image under the suffixed
filename in the output directory, and records the success outcome. -/
theorem processEntry_char (sys : Sys) (dir : String) (i : Nat) (pd : PromptData) :
    ((processEntry sys dir i pd).outcome.isSuccess = false ∧
     (processEntry sys dir i pd).removals = []) ∨
    ((processEntry sys dir i pd).outcome.isSuccess = true ∧
     (processEntry sys dir i pd).removals = [defaultFilename i pd] ∧
     ∃ bytes,
       (processEntry sys dir i pd).writes =
         [(dir ++ "/" ++ withPngSuffix (defaultFilename i pd), bytes)] ∧
       (processEntry sys dir i pd).outcome =
         Outcome.success (withPngSuffix (defaultFilename i pd))
           (dir ++ "/" ++ withPngSuffix (defaultFilename i pd)) (batchGeminiSize pd)
           (pd.aspectRatioStr.getD "1:1") (batchReferenceImages pd).length) := by
  unfold processEntry
  split
  · exact Or.inl ⟨rfl, rfl⟩
  · split
    · exact Or.inl ⟨rfl, rfl⟩
    · split
      · exact Or.inl ⟨rfl, rfl⟩
      · split
        · exact Or.inl ⟨rfl, rfl⟩
        · split
          · exact Or.inl ⟨rfl, rfl⟩
          · split
            · exact Or.inl ⟨rfl, rfl⟩
            · exact Or.inr ⟨rfl, rfl, _, rfl, rfl⟩

/-- A failing iteration removes nothing from the queue. -/
theorem processEntry_fail_no_removal (sys : Sys) (dir : String) (i : Nat) (pd : PromptData)
    (h : (processEntry sys dir i pd).outcome.isSuccess = false) :
    (processEntry sys dir i pd).removals = [] := by
  rcases processEntry_char sys dir i pd with ⟨_, h2⟩ | ⟨h1, _⟩
  · exact h2
  · rw [h1] at h; cases h

/-- The removals of one iteration, as a function of its own outcome. -/
theorem processEntry_removals (sys : Sys) (dir : String) (i : Nat) (pd : PromptData) :
    (processEntry sys dir i pd).removals =
      if (processEntry sys dir i pd).outcome.isSuccess then [defaultFilename i pd] else [] := by
  rcases processEntry_char sys dir i pd with ⟨h1, h2⟩ | ⟨h1, h2, _⟩ <;> rw [h1, h2] <;> rfl

/-- The loop processes every entry: one step per queued entry. -/
theorem runEntries_length (sysAt : Nat → Sys) (dir : String) :
    ∀ (prompts : List PromptData) (i : Nat), (runEntries sysAt dir i prompts).length = prompts.length := by
  intro prompts
  induction prompts with
  | nil => intro i; rfl
  | cons pd rest ih => intro i; simpa [runEntries] using ih (i + 1)

/-- Each element of the run is one `processEntry` application. -/
theorem mem_runEntries (sysAt : Nat → Sys) (dir : String) :
    ∀ (prompts : List PromptData) (i : Nat) (st : ItemStep), st ∈ runEntries sysAt dir i prompts →
      ∃ j pd, st = processEntry (sysAt j) dir j pd := by
  intro prompts
  induction prompts with
  | nil => intro i st h; cases h
  | cons pd rest ih =>
    intro i st h
    rcases List.mem_cons.mp h with h0 | h0
    · exact ⟨i, pd, h0⟩
    · exact ih (i + 1) st h0

/-- The filename list has one entry per queued prompt. -/
theorem queueFilenames_length : ∀ (prompts : List PromptData) (i : Nat),
    (queueFilenames i prompts).length = prompts.length := by
  intro prompts
  induction prompts with
  | nil => intro i; rfl
  | cons pd rest ih => intro i; simpa [queueFilenames] using ih (i + 1)

/-- Each pair of the step/filename zip is a `processEntry` application
paired with the same entry's original filename. -/
theorem mem_zip_runEntries (sysAt : Nat → Sys) (dir : String) :
    ∀ (prompts : List PromptData) (i : Nat) (p : ItemStep × String),
      p ∈ (runEntries sysAt dir i prompts).zip (queueFilenames i prompts) →
      ∃ j pd, p = (processEntry (sysAt j) dir j pd, defaultFilename j pd) := by
  intro prompts
  induction prompts with
  | nil => intro i p h; cases h
  | cons pd rest ih =>
    intro i p h
    rw [runEntries, queueFilenames, List.zip_cons_cons] at h
    rcases List.mem_cons.mp h with h0 | h0
    · exact ⟨i, pd, h0⟩
    · exact ih (i + 1) p h0

/-- The two copies of the reference-image encoder (one per source file)
are the same function. -/
theorem encode_reference_images_eq (sys : Sys) :
    ∀ paths, encode_reference_images sys paths = _encode_reference_images sys paths := by
  intro paths
  induction paths with
  | nil => rfl
  | cons p rest ih =>
    rw [encode_reference_images, _encode_reference_images, ih]

/-- If some path of the list is missing (after expansion), the encoder
fails before reading anything further, naming the first missing path's
expanded form. -/
theorem encode_missing (sys : Sys) :
    ∀ (paths : List String), (∃ p ∈ paths, sys.pathExists (sys.expanduser p) = false) →
      ∃ p ∈ paths, sys.pathExists (sys.expanduser p) = false ∧
        _encode_reference_images sys paths =
          .error ("Reference image not found: " ++ sys.expanduser p) := by
  intro paths
  induction paths with
  | nil => rintro ⟨p, hp, _⟩; cases hp
  | cons q rest ih =>
    rintro ⟨p, hp, hmiss⟩
    by_cases hq : sys.pathExists (sys.expanduser q) = false
    · refine ⟨q, List.mem_cons_self q rest, hq, ?_⟩
      rw [_encode_reference_images]
      simp [hq]
    · have hq' : sys.pathExists (sys.expanduser q) = true := by
        cases h : sys.pathExists (sys.expanduser q)
        · exact absurd h hq
        · rfl
      have hrest : ∃ r ∈ rest, sys.pathExists (sys.expanduser r) = false := by
        rcases List.mem_cons.mp hp with h0 | h0
        · rw [h0] at hmiss; exact absurd hmiss hq
        · exact ⟨p, h0, hmiss⟩
      rcases ih hrest with ⟨r, hr, hrm, herr⟩
      refine ⟨r, List.mem_cons_of_mem q hr, hrm, ?_⟩
      rw [_encode_reference_images]
      simp [hq', herr]

/-- Removing an identifier that is not at the head leaves the head alone. -/
theorem removeFirst_cons_ne (f r : String) (q : List String) (h : f ≠ r) :
    removeFirst (f :: q) r = f :: removeFirst q r := by
  rw [removeFirst]
  simp [h]

/-- A non-numeric identifier is always removed by filename. -/
theorem queueRemove_of_parse_none (q : List String) (r : String) (h : parseNonNegInt r = none) :
    queueRemove q r = removeFirst q r := by
  rw [queueRemove, h]

/-- Removals that neither parse as indices nor match the head commute with
keeping the head. -/
theorem applyRemovals_cons_untouched (f : String) :
    ∀ (removals : List String) (q : List String),
      (∀ r ∈ removals, parseNonNegInt r = none ∧ r ≠ f) →
      applyRemovals (f :: q) removals = f :: applyRemovals q removals := by
  intro removals
  induction removals with
  | nil => intro q _; rfl
  | cons r rest ih =>
    intro q h
    have hr := h r (List.mem_cons_self r rest)
    have hstep : queueRemove (f :: q) r = f :: queueRemove q r := by
      rw [queueRemove_of_parse_none _ _ hr.1, queueRemove_of_parse_none _ _ hr.1,
          removeFirst_cons_ne f r q (fun hfr => hr.2 hfr.symm)]
    show applyRemovals (queueRemove (f :: q) r) rest = f :: applyRemovals (queueRemove q r) rest
    rw [hstep]
    exact ih (queueRemove q r) (fun r' hr' => h r' (List.mem_cons_of_mem r hr'))

/-- Steps whose removal identifiers never refer to the head leave the head
in place through the whole run. -/
theorem queueAfter_cons_untouched (f : String) :
    ∀ (steps : List ItemStep) (q : List String),
      (∀ st ∈ steps, ∀ r ∈ st.removals, parseNonNegInt r = none ∧ r ≠ f) →
      queueAfter (f :: q) steps = f :: queueAfter q steps := by
  intro steps
  induction steps with
  | nil => intro q _; rfl
  | cons st rest ih =>
    intro q h
    show queueAfter (applyRemovals (f :: q) st.removals) rest = f :: queueAfter (applyRemovals q st.removals) rest
    rw [applyRemovals_cons_untouched f st.removals q (h st (List.mem_cons_self st rest))]
    exact ih (applyRemovals q st.removals) (fun st' hst' => h st' (List.mem_cons_of_mem st hst'))

/-- Every identifier a run removes is one of the original filenames. -/
theorem removals_subset_filenames :
    ∀ (steps : List ItemStep) (fns : List String),
      (∀ p ∈ steps.zip fns, p.1.removals = if p.1.outcome.isSuccess then [p.2] else []) →
      steps.length = fns.length →
      ∀ st ∈ steps, ∀ r ∈ st.removals, r ∈ fns := by
  intro steps
  induction steps with
  | nil => intro fns _ _ st hst; cases hst
  | cons st0 rest ih =>
    intro fns hzip hlen st hst r hr
    cases fns with
    | nil => cases hlen
    | cons f fns' =>
      rcases List.mem_cons.mp hst with h0 | h0
      · subst h0
        have h1 := hzip (st, f) (by rw [List.zip_cons_cons]; exact List.mem_cons_self _ _)
        simp only at h1
        rw [h1] at hr
        by_cases hs : st.outcome.isSuccess
        · rw [if_pos hs] at hr
          rw [List.mem_singleton.mp hr]
          exact List.mem_cons_self f fns'
        · rw [if_neg hs] at hr; cases hr
      · have := ih fns'
          (fun p hp => hzip p (by rw [List.zip_cons_cons]; exact List.mem_cons_of_mem _ hp))
          (by simpa using hlen) st h0 r hr
        exact List.mem_cons_of_mem f this

/-- The central queue-consistency invariant: after any prefix of the run,
the live queue holds exactly the failed entries of the prefix (in order)
followed by the not-yet-processed entries — succeeded entries are gone,
everything else is untouched.  Requires the queued filenames to be
distinct and not to parse as integers, since the spec-modelled remove
discriminates on both. -/
theorem queue_evolution :
    ∀ (steps : List ItemStep) (fns : List String),
      fns.Nodup →
      (∀ f ∈ fns, parseNonNegInt f = none) →
      (∀ p ∈ steps.zip fns, p.1.removals = if p.1.outcome.isSuccess then [p.2] else []) →
      steps.length = fns.length →
      ∀ k, queueAfter fns (steps.take k) = pendingAfter ((steps.zip fns).take k) (fns.drop k) := by
  intro steps
  induction steps with
  | nil =>
    intro fns _ _ _ hlen k
    cases fns with
    | nil => simp [queueAfter, pendingAfter]
    | cons f fns' => cases hlen
  | cons st rest ih =>
    intro fns hnodup hnonum hzip hlen k
    cases fns with
    | nil => cases hlen
    | cons f fns' =>
      cases k with
      | zero => simp [queueAfter, pendingAfter]
      | succ k' =>
        have hzip0 : st.removals = if st.outcome.isSuccess then [f] else [] :=
          hzip (st, f) (by rw [List.zip_cons_cons]; exact List.mem_cons_self _ _)
        have hzip' : ∀ p ∈ rest.zip fns', p.1.removals = if p.1.outcome.isSuccess then [p.2] else [] :=
          fun p hp => hzip p (by rw [List.zip_cons_cons]; exact List.mem_cons_of_mem _ hp)
        have hlen' : rest.length = fns'.length := by simpa using hlen
        have hnodup' : fns'.Nodup := hnodup.of_cons
        have hnonum' : ∀ g ∈ fns', parseNonNegInt g = none :=
          fun g hg => hnonum g (List.mem_cons_of_mem f hg)
        have hfnotmem : f ∉ fns' := by
          intro hf; exact (List.nodup_cons.mp hnodup).1 hf
        have htake : (st :: rest).take (k' + 1) = st :: rest.take k' := rfl
        rw [htake]
        show queueAfter (applyRemovals (f :: fns') st.removals) (rest.take k') =
          pendingAfter (((st :: rest).zip (f :: fns')).take (k' + 1)) ((f :: fns').drop (k' + 1))
        rw [List.zip_cons_cons]
        by_cases hs : st.outcome.isSuccess
        · have hrm : applyRemovals (f :: fns') st.removals = fns' := by
            rw [hzip0, if_pos hs]
            show queueRemove (f :: fns') f = fns'
            rw [queueRemove_of_parse_none _ _ (hnonum f (List.mem_cons_self f fns'))]
            rw [removeFirst]
            simp
          rw [hrm]
          have := ih fns' hnodup' hnonum' hzip' hlen' k'
          rw [this]
          show pendingAfter ((rest.zip fns').take k') (fns'.drop k') =
            pendingAfter ((st, f) :: (rest.zip fns').take k') (fns'.drop k')
          rw [pendingAfter, pendingAfter, List.filterMap_cons]
          simp [hs]
        · have hrm : applyRemovals (f :: fns') st.removals = f :: fns' := by
            rw [hzip0, if_neg hs]; rfl
          rw [hrm]
          have hsb : st.outcome.isSuccess = false := by
            cases h : st.outcome.isSuccess
            · rfl
            · exact absurd h hs
          have huntouched : ∀ st' ∈ rest.take k', ∀ r ∈ st'.removals, parseNonNegInt r = none ∧ r ≠ f := by
            intro st' hst' r hr
            have hmem : r ∈ fns' :=
              removals_subset_filenames rest fns' hzip' hlen' st' (List.mem_of_mem_take hst') r hr
            refine ⟨hnonum' r hmem, ?_⟩
            intro hrf; rw [hrf] at hmem; exact hfnotmem hmem
          rw [queueAfter_cons_untouched f (rest.take k') fns' huntouched]
          have := ih fns' hnodup' hnonum' hzip' hlen' k'
          rw [this]
          show f :: pendingAfter ((rest.zip fns').take k') (fns'.drop k') =
            pendingAfter ((st, f) :: (rest.zip fns').take k') (fns'.drop k')
          rw [pendingAfter, pendingAfter, List.filterMap_cons]
          simp [hsb]

/-- The run of a batch with a key and a non-empty prompt list: all entries
processed, then the summary write and the report. -/
theorem generate_images_batch_eq (sysAt : Nat → Sys) (key : String)
    (prompts : List PromptData) (dir : String) (hne : prompts ≠ []) :
    generate_images_batch sysAt (some key) prompts dir =
      ⟨runEntries sysAt dir 1 prompts,
       some (dir ++ "/" ++ "batch_results.json", (runEntries sysAt dir 1 prompts).map ItemStep.outcome),
       some (prompts.length,
         (((runEntries sysAt dir 1 prompts).map ItemStep.outcome).filter Outcome.isSuccess).length,
         (((runEntries sysAt dir 1 prompts).map ItemStep.outcome).filter (fun r => !r.isSuccess)).length)⟩ := by
  have hE : prompts.isEmpty = false := by
    cases prompts with
    | nil => exact absurd rfl hne
    | cons a l => rfl
  simp [generate_images_batch, hE]

/-- The removal behaviour of each step of a run, paired with its entry's
original filename. -/
theorem runEntries_zip_removals (sysAt : Nat → Sys) (dir : String) :
    ∀ (prompts : List PromptData) (i : Nat),
      ∀ p ∈ (runEntries sysAt dir i prompts).zip (queueFilenames i prompts),
        p.1.removals = if p.1.outcome.isSuccess then [p.2] else [] := by
  intro prompts i p hp
  rcases mem_zip_runEntries sysAt dir prompts i p hp with ⟨j, pd, rfl⟩
  exact processEntry_removals (sysAt j) dir j pd

/-! ## Concrete worlds used by witnesses and counterexamples -/

/-- A world where every path exists, decoding succeeds and the API returns
HTTP 200 with one inline-image part. -/
def sysGood : Sys where
  expanduser := id
  pathExists := fun _ => true
  readBytes := fun _ => [1, 2]
  b64encode := fun _ => "QUI="
  b64decode := fun _ => Except.ok [65]
  writeFile := fun _ _ => Except.ok ()
  post := fun _ => { status_code := 200, text := "", parts := [none, some "QUI="] }
  timestamp := "T"

/-- Like `sysGood` but no path exists on disk. -/
def sysMissing : Sys :=
  { sysGood with pathExists := fun _ => false }

/-- Like `sysGood` but the API answers 201 (a 2xx status other than 200). -/
def sys201 : Sys :=
  { sysGood with post := fun _ => { status_code := 201, text := "Created", parts := [some "QUI="] } }

/-- Like `sysGood` but the API answers 503. -/
def sys503 : Sys :=
  { sysGood with post := fun _ => { status_code := 503, text := "oops", parts := [] } }

/-- A queued entry that generates successfully under `sysGood`. -/
def pdOk : PromptData where
  prompt := "a red circle"
  filename := some "circle"
  aspectRatioStr := some "1:1"
  image_size := some "large"
  quality := some "pro"
  reference_images := none
  reference_image := none

/-- A queued entry whose reference image is missing under `sysMissing`. -/
def pdBadRef : PromptData where
  prompt := "a blue square"
  filename := some "square"
  aspectRatioStr := some "1:1"
  image_size := some "large"
  quality := some "pro"
  reference_images := some ["/refs/missing.png"]
  reference_image := none

/-- A two-entry batch world: entry 1 succeeds, entry 2 has a missing
reference image. -/
def sysAtW : Nat → Sys := fun i => if i = 1 then sysGood else sysMissing

/-! ## Claims -/

/-- C1: within a batch run, every entry whose generation attempt fails —
missing reference image, non-200 API response, response without image
data, decode or write error — is not removed from the queue, contributes
an error GenerationOutcome carrying the failure message, and the loop
continues: the run always produces exactly one step per entry. -/
theorem claim_batch_failure_isolation (sysAt : Nat → Sys) (key : String)
    (prompts : List PromptData) (dir : String) (hne : prompts ≠ []) :
    ((generate_images_batch sysAt (some key) prompts dir).steps.length = prompts.length) ∧
    (∀ st ∈ (generate_images_batch sysAt (some key) prompts dir).steps,
        st.outcome.isSuccess = false →
          st.removals = [] ∧ ∃ f e, st.outcome = Outcome.error f e) ∧
    (∀ (sys : Sys) (i : Nat) (pd : PromptData) (e : String),
        encode_reference_images sys (batchReferenceImages pd) = .error e →
        processEntry sys dir i pd =
          ⟨Outcome.error (withPngSuffix (defaultFilename i pd)) e, [], [], []⟩) ∧
    (∀ (sys : Sys) (i : Nat) (pd : PromptData) (refParts : List Part),
        encode_reference_images sys (batchReferenceImages pd) = .ok refParts →
        (sys.post (batchPayload pd refParts)).status_code ≠ 200 →
        processEntry sys dir i pd =
          ⟨Outcome.error (withPngSuffix (defaultFilename i pd))
             ("API error: " ++ toString (sys.post (batchPayload pd refParts)).status_code
              ++ " - " ++ (sys.post (batchPayload pd refParts)).text),
           [batchPayload pd refParts], [], []⟩) ∧
    (∀ (sys : Sys) (i : Nat) (pd : PromptData) (refParts : List Part),
        encode_reference_images sys (batchReferenceImages pd) = .ok refParts →
        (sys.post (batchPayload pd refParts)).status_code = 200 →
        findImageData (sys.post (batchPayload pd refParts)).parts = none →
        processEntry sys dir i pd =
          ⟨Outcome.error (withPngSuffix (defaultFilename i pd)) "No image data in API response",
           [batchPayload pd refParts], [], []⟩) := by
  refine ⟨?_, ?_, ?_, ?_, ?_⟩
  · rw [generate_images_batch_eq sysAt key prompts dir hne]
    exact runEntries_length sysAt dir prompts 1
  · rw [generate_images_batch_eq sysAt key prompts dir hne]
    intro st hst hfail
    rcases mem_runEntries sysAt dir prompts 1 st hst with ⟨j, pd, rfl⟩
    refine ⟨processEntry_fail_no_removal (sysAt j) dir j pd hfail, ?_⟩
    cases h : (processEntry (sysAt j) dir j pd).outcome with
    | success f p r a n => rw [h, Outcome.isSuccess] at hfail; cases hfail
    | error f e => exact ⟨f, e, rfl⟩
  · intro sys i pd e he
    unfold processEntry
    rw [he]
  · intro sys i pd refParts he hs
    unfold processEntry
    rw [he]
    simp only [if_pos hs]
  · intro sys i pd refParts he hs hf
    unfold processEntry
    rw [he]
    dsimp only
    rw [if_neg (fun hc => hc hs)]
    rw [hf]

/-- C1 witness: a concrete two-entry batch (one success, one missing
reference) still yields one outcome per entry. -/
theorem claim_batch_failure_isolation_witness :
    ([pdOk, pdBadRef] ≠ ([] : List PromptData)) ∧
    (generate_images_batch sysAtW (some "key") [pdOk, pdBadRef] "out").steps.length = 2 :=
  ⟨by decide, (claim_batch_failure_isolation sysAtW "key" [pdOk, pdBadRef] "out" (by decide)).1⟩

/-- C2: every successfully generated entry is written to the output
directory under its effective (suffixed) filename, recorded as a success
outcome, and removed from the live queue under its original pre-run
filename; consequently, after any prefix of the run the live queue holds
exactly the not-yet-succeeded entries (failed ones of the prefix, in
order, then the unprocessed ones).  The queue manager's `remove` is
modelled from the spec (`queueRemove`); the invariant needs the queued
filenames to be distinct and non-numeric, since removal discriminates on
both. -/
theorem claim_batch_success_dequeue (sysAt : Nat → Sys) (key dir : String)
    (prompts : List PromptData) (hne : prompts ≠ [])
    (hnodup : (queueFilenames 1 prompts).Nodup)
    (hnonum : ∀ f ∈ queueFilenames 1 prompts, parseNonNegInt f = none) :
    (∀ p ∈ (generate_images_batch sysAt (some key) prompts dir).steps.zip (queueFilenames 1 prompts),
        p.1.outcome.isSuccess = true →
          p.1.removals = [p.2] ∧
          (∃ bytes, p.1.writes = [(dir ++ "/" ++ withPngSuffix p.2, bytes)]) ∧
          (∃ res a n, p.1.outcome =
            Outcome.success (withPngSuffix p.2) (dir ++ "/" ++ withPngSuffix p.2) res a n)) ∧
    (∀ k, queueAfter (queueFilenames 1 prompts)
            ((generate_images_batch sysAt (some key) prompts dir).steps.take k) =
          pendingAfter (((generate_images_batch sysAt (some key) prompts dir).steps.zip
              (queueFilenames 1 prompts)).take k)
            ((queueFilenames 1 prompts).drop k)) := by
  have hsteps : (generate_images_batch sysAt (some key) prompts dir).steps =
      runEntries sysAt dir 1 prompts := by
    rw [generate_images_batch_eq sysAt key prompts dir hne]
  rw [hsteps]
  constructor
  · intro p hp hsucc
    rcases mem_zip_runEntries sysAt dir prompts 1 p hp with ⟨j, pd, rfl⟩
    rcases processEntry_char (sysAt j) dir j pd with ⟨h1, _⟩ | ⟨_, h2, bytes, h3, h4⟩
    · rw [h1] at hsucc; cases hsucc
    · exact ⟨h2, ⟨bytes, h3⟩,
        ⟨batchGeminiSize pd, pd.aspectRatioStr.getD "1:1", (batchReferenceImages pd).length, h4⟩⟩
  · intro k
    exact queue_evolution (runEntries sysAt dir 1 prompts) (queueFilenames 1 prompts)
      hnodup hnonum (runEntries_zip_removals sysAt dir prompts 1)
      (by rw [runEntries_length, queueFilenames_length]) k

/-- C2 witness: in the concrete two-entry run (entry 1 succeeds, entry 2
fails on its missing reference), after both steps the live queue holds
exactly the failed entry's original filename. -/
theorem claim_batch_success_dequeue_witness :
    ((queueFilenames 1 [pdOk, pdBadRef]).Nodup) ∧
    queueAfter (queueFilenames 1 [pdOk, pdBadRef])
        ((generate_images_batch sysAtW (some "key") [pdOk, pdBadRef] "out").steps.take 2) =
      ["square"] := by
  refine ⟨by decide, ?_⟩
  have h := (claim_batch_success_dequeue sysAtW "key" "out" [pdOk, pdBadRef]
    (by decide) (by decide) (by decide)).2 2
  rw [h]
  decide

/-- C8: after the loop, the run writes `batch_results.json` into the
output directory holding the per-item outcomes in entry order, and reports
(total attempted, succeeded, failed), where succeeded and failed partition
the attempts. -/
theorem claim_batch_summary (sysAt : Nat → Sys) (key : String) (prompts : List PromptData)
    (dir : String) (hne : prompts ≠ []) :
    (generate_images_batch sysAt (some key) prompts dir).steps = runEntries sysAt dir 1 prompts ∧
    (generate_images_batch sysAt (some key) prompts dir).steps.length = prompts.length ∧
    (generate_images_batch sysAt (some key) prompts dir).summaryWrite =
      some (dir ++ "/" ++ "batch_results.json",
        (generate_images_batch sysAt (some key) prompts dir).steps.map ItemStep.outcome) ∧
    (generate_images_batch sysAt (some key) prompts dir).report =
      some (prompts.length,
        (((generate_images_batch sysAt (some key) prompts dir).steps.map ItemStep.outcome).filter
            Outcome.isSuccess).length,
        (((generate_images_batch sysAt (some key) prompts dir).steps.map ItemStep.outcome).filter
            (fun r => !r.isSuccess)).length) ∧
    (((generate_images_batch sysAt (some key) prompts dir).steps.map ItemStep.outcome).filter
        Outcome.isSuccess).length +
      (((generate_images_batch sysAt (some key) prompts dir).steps.map ItemStep.outcome).filter
        (fun r => !r.isSuccess)).length = prompts.length := by
  rw [generate_images_batch_eq sysAt key prompts dir hne]
  refine ⟨rfl, ?_, rfl, rfl, ?_⟩
  · exact runEntries_length sysAt dir prompts 1
  · have hL := (@List.length_eq_length_filter_add Outcome
      ((runEntries sysAt dir 1 prompts).map ItemStep.outcome) Outcome.isSuccess).symm
    rw [List.length_map, runEntries_length] at hL
    exact hL

/-- C8 witness: the concrete two-entry run reports 2 attempted, 1
succeeded, 1 failed. -/
theorem claim_batch_summary_witness :
    ([pdOk, pdBadRef] ≠ ([] : List PromptData)) ∧
    (generate_images_batch sysAtW (some "key") [pdOk, pdBadRef] "out").report = some (2, 1, 1) := by
  refine ⟨by decide, ?_⟩
  have h := (claim_batch_summary sysAtW "key" [pdOk, pdBadRef] "out" (by decide)).2.2.2.1
  rw [h]
  decide

set_option maxHeartbeats 1000000 in
/-- C3: a fast-tier request with non-empty reference images (list or
single) builds a payload whose content parts are exactly the prompt text
— zero reference parts — and any success outcome reports zero reference
images used; likewise a fast-tier batch entry uses the empty reference
list, posts only the prompt text, and its success outcome reports zero
references used. -/
theorem claim_fast_drops_references (sys : Sys) (cfg : ServerCfg) (k prompt a isz : String)
    (rimg : Option String) (rargs : RefArg)
    (href : rargs.truthy = true ∨ optStrTruthy rimg = true) :
    (∀ pl ∈ (generate_image sys cfg (some k) prompt a isz rimg rargs "fast").calls,
        pl.parts = [Part.text prompt]) ∧
    (∀ res, (generate_image sys cfg (some k) prompt a isz rimg rargs "fast").result = .ok res →
        res.reference_images_used = 0) ∧
    (∀ (dir : String) (i : Nat) (pd : PromptData), batchQuality pd = "fast" →
        batchReferenceImages pd = [] ∧
        (∀ pl ∈ (processEntry sys dir i pd).calls, pl.parts = [Part.text pd.prompt]) ∧
        (∀ f p r a2 n, (processEntry sys dir i pd).outcome = Outcome.success f p r a2 n → n = 0)) := by
  have h1 : server_ref_paths cfg (server_quality "fast") rargs rimg = .ok [] := rfl
  have h2 : _encode_reference_images sys ([] : List String) = .ok [] := rfl
  refine ⟨?_, ?_, ?_⟩
  · intro pl hpl
    unfold generate_image at hpl
    rw [h1] at hpl
    dsimp only at hpl
    rw [h2] at hpl
    dsimp only at hpl
    split at hpl
    · rw [List.mem_singleton.mp hpl]; rfl
    · split at hpl
      · rw [List.mem_singleton.mp hpl]; rfl
      · split at hpl
        · rw [List.mem_singleton.mp hpl]; rfl
        · split at hpl
          · rw [List.mem_singleton.mp hpl]; rfl
          · split at hpl
            · rw [List.mem_singleton.mp hpl]; rfl
            · rw [List.mem_singleton.mp hpl]; rfl
  · intro res hres
    unfold generate_image at hres
    rw [h1] at hres
    dsimp only at hres
    rw [h2] at hres
    dsimp only at hres
    split at hres
    · cases hres
    · split at hres
      · cases hres
      · split at hres
        · cases hres
        · split at hres
          · cases hres
          · split at hres
            · cases hres
            · cases hres; rfl
  · intro dir i pd hq
    have hrefs : batchReferenceImages pd = [] := by
      unfold batchReferenceImages
      rw [hq]
      rfl
    have h3 : encode_reference_images sys (batchReferenceImages pd) = .ok [] := by
      rw [hrefs]; rfl
    refine ⟨hrefs, ?_, ?_⟩
    · intro pl hpl
      unfold processEntry at hpl
      rw [h3] at hpl
      dsimp only at hpl
      split at hpl
      · rw [List.mem_singleton.mp hpl]; rfl
      · split at hpl
        · rw [List.mem_singleton.mp hpl]; rfl
        · split at hpl
          · rw [List.mem_singleton.mp hpl]; rfl
          · split at hpl
            · rw [List.mem_singleton.mp hpl]; rfl
            · split at hpl
              · rw [List.mem_singleton.mp hpl]; rfl
              · rw [List.mem_singleton.mp hpl]; rfl
    · intro f p r a2 n hres
      unfold processEntry at hres
      rw [h3] at hres
      dsimp only at hres
      split at hres
      · cases hres
      · split at hres
        · cases hres
        · split at hres
          · cases hres
          · split at hres
            · cases hres
            · split at hres
              · cases hres
              · cases hres
                rw [hrefs]
                rfl

/-- C3 witness: a concrete fast-tier call with one supplied reference
image still reports zero reference images used. -/
theorem claim_fast_drops_references_witness :
    ((RefArg.pyList ["/a.png"]).truthy = true) ∧
    (server_success sysGood ⟨14, "img"⟩ "1:1" "large" (server_quality "fast") []).reference_images_used = 0 := by
  refine ⟨by decide, ?_⟩
  exact (claim_fast_drops_references sysGood ⟨14, "img"⟩ "k" "p" "1:1" "large" none
    (RefArg.pyList ["/a.png"]) (Or.inl (by decide))).2.1 _ (by decide)

/-- A 15-reference queue entry: more than the configured default cap of 14. -/
def pd15 : PromptData where
  prompt := "p"
  filename := some "many"
  aspectRatioStr := none
  image_size := none
  quality := some "pro"
  reference_images := some ["r1", "r2", "r3", "r4", "r5", "r6", "r7", "r8", "r9", "r10",
                            "r11", "r12", "r13", "r14", "r15"]
  reference_image := none

/-- C4 counterexample: the batch runner enforces no reference cap — a
15-reference entry (above the default limit of 14) is encoded in full, a
network call is issued, and the item succeeds, contradicting the claim
that every over-limit request fails with a capacity error and no call. -/
theorem counter_reference_capacity :
    (batchReferenceImages pd15).length = 15 ∧ 14 < (batchReferenceImages pd15).length ∧
    (processEntry sysGood "out" 1 pd15).calls.length = 1 ∧
    (processEntry sysGood "out" 1 pd15).outcome.isSuccess = true := by
  decide

/-- C4 (amended): in the MCP server, a request whose tier coerces to pro
and whose normalized reference list exceeds `MAX_REF_IMAGES` fails — in
`generate_image` before any network call, and in `add_to_batch` before
any enqueue — with the capacity message naming the limit.  The fast tier
skips the check (references are dropped unchecked), and the batch runner
enforces no cap at all. -/
theorem claim_reference_capacity (sys : Sys) (cfg : ServerCfg) (k prompt a isz q : String)
    (fn rimg : Option String) (rargs : RefArg)
    (hq : server_quality q = "pro")
    (hlen : (_normalize_paths rargs rimg).length > cfg.maxRefImages) :
    generate_image sys cfg (some k) prompt a isz rimg rargs q =
      ⟨.error ("Too many reference images (" ++ toString (_normalize_paths rargs rimg).length
               ++ "). Maximum is " ++ toString cfg.maxRefImages ++ "."), [], []⟩ ∧
    add_to_batch cfg prompt fn a isz rimg rargs q =
      .error ("Too many reference images (" ++ toString (_normalize_paths rargs rimg).length
              ++ "). Maximum is " ++ toString cfg.maxRefImages ++ ".") := by
  have hn : _normalize_reference_images cfg.maxRefImages rargs rimg =
      .error ("Too many reference images (" ++ toString (_normalize_paths rargs rimg).length
              ++ "). Maximum is " ++ toString cfg.maxRefImages ++ ".") := by
    unfold _normalize_reference_images
    rw [if_pos hlen]
  constructor
  · unfold generate_image
    dsimp only
    rw [server_ref_paths, if_pos hq, hn]
  · unfold add_to_batch
    dsimp only
    rw [if_pos hq, hn]

/-- C4 witness: with a configured cap of 2, a pro request with three
reference images fails with the capacity message and makes no network
call. -/
theorem claim_reference_capacity_witness :
    (server_quality "pro" = "pro") ∧
    generate_image sysGood ⟨2, "img"⟩ (some "k") "p" "1:1" "large" none
        (RefArg.pyList ["a", "b", "c"]) "pro" =
      ⟨.error "Too many reference images (3). Maximum is 2.", [], []⟩ :=
  ⟨rfl, (claim_reference_capacity sysGood ⟨2, "img"⟩ "k" "p" "1:1" "large" "pro" none none
    (RefArg.pyList ["a", "b", "c"]) rfl (by decide)).1⟩

/-- C5 counterexample: a 201 response — inside the 2xx range — is treated
as a hard failure by the code, which only accepts exactly 200. -/
theorem counter_non200_failure :
    200 ≤ 201 ∧ 201 < 300 ∧
    (generate_image sys201 ⟨14, "img"⟩ (some "k") "p" "1:1" "large" none RefArg.pyNone "pro").result =
      .error "API error: 201 - Created" := by
  decide

/-- C5 (amended): whenever the pre-network stages succeed, exactly one
network call is issued (no automatic retry); a status other than exactly
200 is a hard failure whose message carries the status and body verbatim,
while a 200 response proceeds to image extraction and, when the response
carries image data and decode/write succeed, yields the success result. -/
theorem claim_non200_failure (sys : Sys) (cfg : ServerCfg) (k prompt a isz q : String)
    (rimg : Option String) (rargs : RefArg) (ref_paths : List String) (refParts : List Part)
    (hn : server_ref_paths cfg (server_quality q) rargs rimg = .ok ref_paths)
    (he : _encode_reference_images sys ref_paths = .ok refParts) :
    ((generate_image sys cfg (some k) prompt a isz rimg rargs q).calls =
      [server_payload prompt a isz (server_quality q) refParts]) ∧
    ((sys.post (server_payload prompt a isz (server_quality q) refParts)).status_code ≠ 200 →
      generate_image sys cfg (some k) prompt a isz rimg rargs q =
        ⟨.error ("API error: "
                 ++ toString (sys.post (server_payload prompt a isz (server_quality q) refParts)).status_code
                 ++ " - " ++ (sys.post (server_payload prompt a isz (server_quality q) refParts)).text),
         [server_payload prompt a isz (server_quality q) refParts], []⟩) ∧
    ((sys.post (server_payload prompt a isz (server_quality q) refParts)).status_code = 200 →
      ∀ d bytes,
        findImageData (sys.post (server_payload prompt a isz (server_quality q) refParts)).parts = some d →
        d.isEmpty = false →
        sys.b64decode d = .ok bytes →
        sys.writeFile (server_out_path cfg sys) bytes = .ok () →
        generate_image sys cfg (some k) prompt a isz rimg rargs q =
          ⟨.ok (server_success sys cfg a isz (server_quality q) ref_paths),
           [server_payload prompt a isz (server_quality q) refParts],
           [(server_out_path cfg sys, bytes)]⟩) := by
  refine ⟨?_, ?_, ?_⟩
  · unfold generate_image
    rw [hn]
    dsimp only
    rw [he]
    dsimp only
    split
    · rfl
    · split
      · rfl
      · split
        · rfl
        · split
          · rfl
          · split
            · rfl
            · rfl
  · intro hs
    unfold generate_image
    rw [hn]
    dsimp only
    rw [he]
    dsimp only
    rw [if_pos hs]
  · intro hs d bytes hfind hne hdec hwrite
    unfold generate_image
    rw [hn]
    dsimp only
    rw [he]
    dsimp only
    rw [if_neg (fun hc => hc hs), hfind]
    dsimp only
    rw [if_neg (by rw [hne]; intro hc; cases hc), hdec]
    dsimp only
    rw [hwrite]

/-- C5 witness: a concrete 503 response is captured verbatim as a hard
failure after exactly one network call. -/
theorem claim_non200_failure_witness :
    (server_ref_paths ⟨14, "img"⟩ (server_quality "pro") RefArg.pyNone none = .ok []) ∧
    generate_image sys503 ⟨14, "img"⟩ (some "k") "p" "1:1" "large" none RefArg.pyNone "pro" =
      ⟨.error "API error: 503 - oops",
       [server_payload "p" "1:1" "large" (server_quality "pro") []], []⟩ :=
  ⟨rfl, (claim_non200_failure sys503 ⟨14, "img"⟩ "k" "p" "1:1" "large" "pro" none
    RefArg.pyNone [] [] rfl rfl).2.1 (by decide)⟩

/-- A fast-tier queue entry with its size class left at the "large"
default. -/
def pdFastLarge : PromptData where
  prompt := "p"
  filename := some "a"
  aspectRatioStr := none
  image_size := none
  quality := some "fast"
  reference_images := none
  reference_image := none

/-- C6 counterexample: the batch runner performs no fast-tier remap — a
fast entry whose size class is the "large" default resolves to "2K", not
"1K", in its success outcome. -/
theorem counter_size_remap :
    batchQuality pdFastLarge = "fast" ∧ pdFastLarge.image_size = none ∧
    batchGeminiSize pdFastLarge = "2K" ∧
    (processEntry sysGood "out" 1 pdFastLarge).outcome =
      Outcome.success "a.png" "out/a.png" "2K" "1:1" 0 := by
  decide

/-- C6 (amended): in the MCP server, a fast-tier request with size class
"large" is remapped to "small" before the table lookup, resolving to
"1K", and `add_to_batch` likewise enqueues "small"; the pro tier is never
remapped and resolves via the fixed table small→1K, medium→2K, large→2K,
xlarge→4K.  The batch runner itself performs no remap: an entry carrying
size class "large" (explicitly or by default) resolves to "2K" whatever
its tier — entries queued through `add_to_batch` arrive already remapped. -/
theorem claim_size_remap :
    server_gemini_size "fast" "large" = "1K" ∧
    (∀ s : String, server_gemini_size "pro" s = (size_map.lookup s).getD "2K") ∧
    server_gemini_size "pro" "small" = "1K" ∧ server_gemini_size "pro" "medium" = "2K" ∧
    server_gemini_size "pro" "large" = "2K" ∧ server_gemini_size "pro" "xlarge" = "4K" ∧
    (∀ (res : GenResult) (sys : Sys) (cfg : ServerCfg) (k prompt a : String)
        (rimg : Option String) (rargs : RefArg),
        (generate_image sys cfg (some k) prompt a "large" rimg rargs "fast").result = .ok res →
        res.resolution = "1K") ∧
    (∀ (cfg : ServerCfg) (prompt : String) (fn : Option String) (a : String)
        (rimg : Option String) (rargs : RefArg) (cmd : AddToBatchCmd),
        add_to_batch cfg prompt fn a "large" rimg rargs "fast" = .ok cmd →
        cmd.image_size = "small") ∧
    (∀ pr fn a q ri rimg, batchGeminiSize ⟨pr, fn, a, some "large", q, ri, rimg⟩ = "2K") ∧
    (∀ pr fn a q ri rimg, batchGeminiSize ⟨pr, fn, a, none, q, ri, rimg⟩ = "2K") := by
  refine ⟨rfl, ?_, rfl, rfl, rfl, rfl, ?_, ?_, ?_, ?_⟩
  · intro s
    unfold server_gemini_size
    simp
  · intro res sys cfg k prompt a rimg rargs hres
    have h1 : server_ref_paths cfg (server_quality "fast") rargs rimg = .ok [] := rfl
    have h2 : _encode_reference_images sys ([] : List String) = .ok [] := rfl
    unfold generate_image at hres
    rw [h1] at hres
    dsimp only at hres
    rw [h2] at hres
    dsimp only at hres
    split at hres
    · cases hres
    · split at hres
      · cases hres
      · split at hres
        · cases hres
        · split at hres
          · cases hres
          · split at hres
            · cases hres
            · cases hres; rfl
  · intro cfg prompt fn a rimg rargs cmd h
    have hred : add_to_batch cfg prompt fn a "large" rimg rargs "fast" =
        .ok ⟨prompt, pyOr fn "", pyOr (some a) "16:9", "small", [], "fast"⟩ := rfl
    rw [hred] at h
    cases h
    rfl
  · intro pr fn a q ri rimg
    rfl
  · intro pr fn a q ri rimg
    rfl

/-- C6 witness: a concrete fast-tier `generate_image` call with the
"large" default resolves its success outcome to "1K". -/
theorem claim_size_remap_witness :
    (generate_image sysGood ⟨14, "img"⟩ (some "k") "p" "1:1" "large" none RefArg.pyNone "fast").result =
      .ok (server_success sysGood ⟨14, "img"⟩ "1:1" "large" (server_quality "fast") []) ∧
    (server_success sysGood ⟨14, "img"⟩ "1:1" "large" (server_quality "fast") []).resolution = "1K" :=
  ⟨by decide, (claim_size_remap).2.2.2.2.2.2.1 _ sysGood ⟨14, "img"⟩ "k" "p" "1:1" none
    RefArg.pyNone (by decide)⟩

/-- C7 counterexample: a fast-tier request carrying a reference path that
does not exist on disk does not fail — the reference is silently dropped
and a network call is issued, succeeding against the claim that every
request containing a missing reference path fails before any network
call. -/
theorem counter_missing_reference :
    sysMissing.pathExists (sysMissing.expanduser "/ref.png") = false ∧
    (generate_image sysMissing ⟨14, "img"⟩ (some "k") "p" "1:1" "large" (some "/ref.png")
        RefArg.pyNone "fast").calls.length = 1 ∧
    (generate_image sysMissing ⟨14, "img"⟩ (some "k") "p" "1:1" "large" (some "/ref.png")
        RefArg.pyNone "fast").result =
      .ok (server_success sysMissing ⟨14, "img"⟩ "1:1" "large" (server_quality "fast") []) := by
  decide

/-- C7 (amended): whenever the reference list actually reaches the
encoder — a server request whose tier coerces to pro, or a batch entry
with a non-empty effective reference list — a missing path (after
user-home expansion) makes the request fail with "Reference image not
found: <expanded path>" naming some missing path, with no network call
and no write.  Fast-tier server requests drop their references unchecked
(see the counterexample). -/
theorem claim_missing_reference (sys : Sys) (cfg : ServerCfg) (k prompt a isz q : String)
    (rimg : Option String) (rargs : RefArg) (ref_paths : List String)
    (hq : server_quality q = "pro")
    (hn : _normalize_reference_images cfg.maxRefImages rargs rimg = .ok ref_paths)
    (hmiss : ∃ p ∈ ref_paths, sys.pathExists (sys.expanduser p) = false) :
    (∃ p ∈ ref_paths, sys.pathExists (sys.expanduser p) = false ∧
      generate_image sys cfg (some k) prompt a isz rimg rargs q =
        ⟨.error ("Reference image not found: " ++ sys.expanduser p), [], []⟩) ∧
    (∀ (sys2 : Sys) (dir : String) (i : Nat) (pd : PromptData),
        (∃ p ∈ batchReferenceImages pd, sys2.pathExists (sys2.expanduser p) = false) →
        ∃ p ∈ batchReferenceImages pd, sys2.pathExists (sys2.expanduser p) = false ∧
          processEntry sys2 dir i pd =
            ⟨Outcome.error (withPngSuffix (defaultFilename i pd))
               ("Reference image not found: " ++ sys2.expanduser p), [], [], []⟩) := by
  constructor
  · rcases encode_missing sys ref_paths hmiss with ⟨p, hp, hm, herr⟩
    refine ⟨p, hp, hm, ?_⟩
    unfold generate_image
    rw [server_ref_paths, if_pos hq, hn]
    dsimp only
    rw [herr]
  · intro sys2 dir i pd h
    rcases encode_missing sys2 (batchReferenceImages pd) h with ⟨p, hp, hm, herr⟩
    refine ⟨p, hp, hm, ?_⟩
    unfold processEntry
    rw [encode_reference_images_eq sys2 (batchReferenceImages pd), herr]

/-- C7 witness: a concrete pro-tier call with one missing reference path
fails before any network call, naming that path. -/
theorem claim_missing_reference_witness :
    generate_image sysMissing ⟨14, "img"⟩ (some "k") "p" "1:1" "large" (some "/ref.png")
        RefArg.pyNone "pro" =
      ⟨.error "Reference image not found: /ref.png", [], []⟩ := by
  have h := (claim_missing_reference sysMissing ⟨14, "img"⟩ "k" "p" "1:1" "large" "pro"
    (some "/ref.png") RefArg.pyNone ["/ref.png"] rfl rfl
    ⟨"/ref.png", by decide, by decide⟩).1
  rcases h with ⟨p, hp, _, heq⟩
  rw [List.mem_singleton.mp hp] at heq
  exact heq

/-- C9: invoking an unrecognized operation name yields an error envelope
with the numeric code -32000 and a message naming the unknown operation;
the read loop is a homomorphism over its input — it never stops early —
and even an operation that raises is converted into an error envelope
while the loop continues with the remaining input. -/
theorem claim_dispatcher_unknown_tool (impl : String → Except String String) (rid : Option Nat)
    (name : String) (hname : knownTools.contains name = false) :
    (handle_tool_call impl rid (some name) =
      Response.errorEnvelope rid (-32000) ("Unknown tool: " ++ name)) ∧
    (∀ pre post : List (Except String Message),
        mainLoop impl (pre ++ post) = mainLoop impl pre ++ mainLoop impl post) ∧
    (∀ (n e : String) (rid2 : Option Nat) (rest : List (Except String Message)),
        knownTools.contains n = true → impl n = .error e →
        mainLoop impl (.ok ⟨some "tools/call", rid2, some n⟩ :: rest) =
          Response.errorEnvelope rid2 (-32000) e :: mainLoop impl rest) := by
  refine ⟨?_, ?_, ?_⟩
  · unfold handle_tool_call
    dsimp only
    rw [hname]
    rfl
  · intro pre post
    induction pre with
    | nil => rfl
    | cons x rest ih =>
      cases x with
      | error e => simpa [mainLoop] using ih
      | ok m => simp [mainLoop, ih]
  · intro n e rid2 rest hknown hfail
    show dispatchMessage impl ⟨some "tools/call", rid2, some n⟩ ++ mainLoop impl rest = _
    unfold dispatchMessage handle_tool_call
    dsimp only
    rw [hknown]
    simp only [if_true]
    rw [hfail]
    rfl

/-- C9 witness: the unrecognized operation "frobnicate" gets the -32000
error envelope naming it. -/
theorem claim_dispatcher_unknown_tool_witness :
    (knownTools.contains "frobnicate" = false) ∧
    handle_tool_call (fun _ => .ok "") (some 1) (some "frobnicate") =
      Response.errorEnvelope (some 1) (-32000) "Unknown tool: frobnicate" :=
  ⟨by decide, (claim_dispatcher_unknown_tool (fun _ => .ok "") (some 1) "frobnicate" (by decide)).1⟩

/-- C10: a message whose method is none of the four recognized ones gets
no response at all — not even an error envelope — and the loop simply
moves on to the next message. -/
theorem claim_unrecognized_method_silent (impl : String → Except String String) (m : Message)
    (rest : List (Except String Message))
    (h1 : m.method ≠ some "initialize") (h2 : m.method ≠ some "tools/list")
    (h3 : m.method ≠ some "tools/call") (h4 : m.method ≠ some "notifications/initialized") :
    dispatchMessage impl m = [] ∧ mainLoop impl (.ok m :: rest) = mainLoop impl rest := by
  have hd : dispatchMessage impl m = [] := by
    unfold dispatchMessage
    split
    · simp_all
    · simp_all
    · simp_all
    · rfl
    · rfl
  refine ⟨hd, ?_⟩
  have hstep : mainLoop impl (.ok m :: rest) = dispatchMessage impl m ++ mainLoop impl rest := rfl
  rw [hstep, hd]
  rfl

/-- C10 witness: a "ping" request produces no output and the loop goes on. -/
theorem claim_unrecognized_method_silent_witness :
    ((⟨some "ping", some 7, none⟩ : Message).method ≠ some "initialize") ∧
    dispatchMessage (fun _ => .ok "") ⟨some "ping", some 7, none⟩ = [] :=
  ⟨by decide, (claim_unrecognized_method_silent (fun _ => .ok "") ⟨some "ping", some 7, none⟩ []
    (by decide) (by decide) (by decide) (by decide)).1⟩

end Gemini
